import Mathlib

/-!
Verification of the Readest plugin runtime core: the type mappers and
annotation/book data providers, the plugin UI registries, the plugin
lifecycle service and the sidecar process bridge, shallowly embedded from
the TypeScript sources under `src/apps/readest-app/src`.

Conventions of the embedding:
- JS `undefined`/`null` is `Option.none`; `??` is `Option.getD` / a match.
- JS numbers holding integer counts, indexes and timestamps are `Nat`/`Int`.
- `Date.now()` and random id generation are nondeterministic host inputs and
  are passed as explicit parameters (`now`, `genId`).
- Zustand store snapshots are explicit state values threaded through the
  operations; external side effects (view rendering, disk persistence) that
  the code performs best-effort are outside the modelled state.
-/

/-! ### Type mappers (`typeMappers.ts`) -/

/-- Readest `BookNote.type`: the string union `'bookmark' | 'annotation' |
'excerpt'`. The constructor `annot` encodes the source value `'annotation'`. -/
inductive BookNoteType where
  | bookmark
  | annot
  | excerpt
deriving DecidableEq

/-- SDK `Annotation.type`: the string union `'footnote' | 'highlight' |
'comment' | 'sidebar'`. -/
inductive SDKNoteType where
  | footnote
  | highlight
  | comment
  | sidebar
deriving DecidableEq

/-- `mapReadestNoteTypeToSDK` from `typeMappers.ts`: 'bookmark' → 'sidebar',
'annotation' → 'highlight', 'excerpt' → 'comment'. The source's `default`
branch ('highlight') is unreachable for the closed union. -/
def mapReadestNoteTypeToSDK : BookNoteType → SDKNoteType
  | .bookmark => .sidebar
  | .annot => .highlight
  | .excerpt => .comment

/-- `mapSDKTypeToReadestNoteType` from `typeMappers.ts`: 'sidebar' →
'bookmark', 'highlight' and 'footnote' → 'annotation', 'comment' →
'excerpt'. -/
def mapSDKTypeToReadestNoteType : SDKNoteType → BookNoteType
  | .sidebar => .bookmark
  | .highlight => .annot
  | .footnote => .annot
  | .comment => .excerpt

/-! ### Decimal strings, as JS number-to-string produces them -/

/-- The character of one decimal digit. -/
def digitChar : Nat → Char
  | 0 => '0' | 1 => '1' | 2 => '2' | 3 => '3' | 4 => '4'
  | 5 => '5' | 6 => '6' | 7 => '7' | 8 => '8' | 9 => '9'
  | _ => 'x'

/-- The numeric value of one decimal digit character (0 on non-digits,
mirroring how `parseInt` only ever sees digit runs here). -/
def digitVal : Char → Nat
  | '0' => 0 | '1' => 1 | '2' => 2 | '3' => 3 | '4' => 4
  | '5' => 5 | '6' => 6 | '7' => 7 | '8' => 8 | '9' => 9
  | _ => 0

/-- The decimal digit characters of a natural number, most significant
first: the digits JS template-string interpolation prints. -/
def natDigits (m : Nat) : List Char :=
  if m < 10 then [digitChar m]
  else natDigits (m / 10) ++ [digitChar (m % 10)]
decreasing_by exact Nat.div_lt_self (by omega) (by omega)

/-- JS number-to-string for an integer value (`\x7b...\x7d` interpolation in a
template literal). -/
def intToDecimalString (i : Int) : String :=
  if i < 0 then "-" ++ String.mk (natDigits i.natAbs)
  else String.mk (natDigits i.toNat)

/-- `parseInt(ds, 10)` on a run of decimal digit characters. -/
def parseDigits (ds : List Char) : Nat :=
  ds.foldl (fun a c => a * 10 + digitVal c) 0

/-! ### CFI section-index extraction (`typeMappers.ts`) -/

/-- One attempt of the regex `\/6\/(\d+)` at the current position: matches
`/6/` followed by at least one digit and returns the maximal digit run
(the capture group), `none` when the pattern does not match here. -/
def cfiMatchAt : List Char → Option (List Char)
  | '/' :: '6' :: '/' :: rest =>
      let ds := rest.takeWhile Char.isDigit
      if ds.isEmpty then none else some ds
  | _ => none

/-- The regex search `cfi.match(\/6\/(\d+))`: the capture group of the
first position where the pattern matches, scanning left to right. -/
def cfiScan : List Char → Option (List Char)
  | [] => none
  | c :: cs =>
      match cfiMatchAt (c :: cs) with
      | some ds => some ds
      | none => cfiScan cs

/-- `extractSectionIndexFromCFI` from `typeMappers.ts`: 0 for an empty
string, else finds `/6/<step>` and returns `max 0 (step / 2 - 1)`,
falling back to 0 when the pattern is absent. -/
def extractSectionIndexFromCFI (cfi : String) : Int :=
  if cfi = "" then 0
  else
    match cfiScan cfi.data with
    | some ds => max 0 ((parseDigits ds : Int) / 2 - 1)
    | none => 0

/-! ### Annotation data model (`@/types/book` shapes as used by the core) -/

/-- A Readest `BookNote` record, with the fields the plugin core reads and
writes. Timestamps are epoch-millisecond counts. -/
structure BookNote where
  id : String
  bookHash : Option String
  type : BookNoteType
  cfi : String
  text : Option String
  note : Option String
  style : Option String
  color : Option String
  createdAt : Nat
  updatedAt : Nat
  deletedAt : Option Nat
deriving DecidableEq

/-- The slice of `BookConfig` the annotation provider touches. -/
structure BookConfig where
  booknotes : Option (List BookNote)
deriving DecidableEq

/-- An SDK `Annotation` as built by `mapBookNoteToSDKAnnotation`. The
`metadata` record it carries (`cfi`, `readestNoteType`, `bookHash`) is
modelled as the three `meta*` fields; the ISO stringification of the
timestamps is kept as the raw count (an injective formatting). -/
structure SDKAnnotation where
  id : String
  pluginId : String
  chapterIndex : Int
  startOffset : Int
  endOffset : Int
  type : SDKNoteType
  content : String
  style : Option String
  metaCfi : String
  metaReadestNoteType : BookNoteType
  metaBookHash : Option String
  createdAt : Nat
  updatedAt : Nat
deriving DecidableEq

/-- An SDK `NewAnnotation` as consumed by `mapSDKAnnotationToBookNote`.
Free-form `metadata` is an association list; an absent metadata object is
the empty list (both make every key lookup miss). -/
structure SDKNewAnnotation where
  chapterIndex : Int
  type : SDKNoteType
  content : String
  style : Option String
  metadata : List (String × String)
deriving DecidableEq

/-- JS truthiness of an optional string (`undefined` and `''` are falsy). -/
def jsTruthyStr : Option String → Bool
  | none => false
  | some s => s != ""

/-- `mapBookNoteToSDKAnnotation` from `typeMappers.ts`. -/
def mapBookNoteToSDKAnnotation (note : BookNote) (pluginId : String) :
    SDKAnnotation :=
  { id := note.id
    pluginId := pluginId
    chapterIndex := extractSectionIndexFromCFI note.cfi
    startOffset := 0
    endOffset := 0
    type := mapReadestNoteTypeToSDK note.type
    content := (note.text).getD ((note.note).getD "")
    style :=
      if jsTruthyStr note.style && jsTruthyStr note.color then
        some (((note.style).getD "") ++ ":" ++ ((note.color).getD ""))
      else
        match note.style with
        | some s => some s
        | none => note.color
    metaCfi := note.cfi
    metaReadestNoteType := note.type
    metaBookHash := note.bookHash
    createdAt := note.createdAt
    updatedAt := note.updatedAt }

/-- `mapSDKAnnotationToBookNote` from `typeMappers.ts`. `now` stands for
`Date.now()` and `genId` for the generated `plugin-<now>-<random>` id. -/
def mapSDKAnnotationToBookNote (ann : SDKNewAnnotation)
    (bookHash : Option String) (cfi : Option String) (now : Nat)
    (genId : String) : BookNote :=
  let noteType := mapSDKTypeToReadestNoteType ann.type
  let styleColor : Option String × Option String :=
    match ann.style with
    | none => (none, none)
    | some s =>
        if s = "" then (none, none)
        else
          let parts := s.splitOn ":"
          if parts.length = 2 then (parts.get? 0, parts.get? 1)
          else (some "highlight", some s)
  let resolvedCFI :=
    match cfi with
    | some c => c
    | none =>
        match ann.metadata.lookup "cfi" with
        | some c => c
        | none =>
            "epubcfi(/6/" ++ intToDecimalString ((ann.chapterIndex + 1) * 2)
              ++ "!)"
  { id := genId
    bookHash := bookHash
    type := noteType
    cfi := resolvedCFI
    text := some ann.content
    note := some ""
    style := styleColor.1
    color := styleColor.2
    createdAt := now
    updatedAt := now
    deletedAt := none }

/-! ### Annotation provider (`ReadestAnnotationDataProvider.ts`) -/

/-- The filter `!note.deletedAt` of `getAnnotations`, with JS truthiness of
the optional numeric field: a note counts as active when `deletedAt` is
absent or 0. -/
def isActiveNote (note : BookNote) : Bool :=
  match note.deletedAt with
  | none => true
  | some t => t == 0

/-- `ReadestAnnotationDataProvider.getAnnotations`: the non-deleted notes of
the config's `booknotes`, mapped to SDK annotations, optionally filtered by
chapter index. `config` is what `accessors.getConfig(bookKey)` returned. -/
def getAnnotations (config : Option BookConfig) (pluginId : String)
    (chapterIndex : Option Int) : List SDKAnnotation :=
  match config with
  | none => []
  | some cfg =>
      match cfg.booknotes with
      | none => []
      | some notes =>
          let activeNotes := notes.filter isActiveNote
          let anns :=
            activeNotes.map (fun note => mapBookNoteToSDKAnnotation note pluginId)
          match chapterIndex with
          | some ci => anns.filter (fun a => a.chapterIndex == ci)
          | none => anns

/-- `ReadestAnnotationDataProvider.createAnnotation`: maps the new
annotation to a `BookNote` (no explicit cfi argument), appends it to the
existing `booknotes`, and returns the updated collection together with the
SDK-mapped result. View rendering and disk persistence are best-effort
external effects outside the modelled state. -/
def createAnnotation (config : Option BookConfig) (bookHash : Option String)
    (pluginId : String) (ann : SDKNewAnnotation) (now : Nat)
    (genId : String) : List BookNote × SDKAnnotation :=
  let newNote := mapSDKAnnotationToBookNote ann bookHash none now genId
  let existingNotes :=
    match config with
    | none => []
    | some cfg => (cfg.booknotes).getD []
  (existingNotes ++ [newNote], mapBookNoteToSDKAnnotation newNote pluginId)

/-- `ReadestAnnotationDataProvider.deleteAnnotation`: soft delete. Returns
the config as stored after the call — unchanged on the early-return paths
(no config, no `booknotes` array, id absent), else with the found note
stamped with `deletedAt`/`updatedAt` (`now` stands for `Date.now()`). -/
def deleteAnnotation (config : Option BookConfig) (annotationId : String)
    (now : Nat) : Option BookConfig :=
  match config with
  | none => none
  | some cfg =>
      match cfg.booknotes with
      | none => some cfg
      | some notes =>
          match notes.findIdx? (fun n => n.id == annotationId) with
          | none => some cfg
          | some noteIndex =>
              let updatedNotes :=
                match notes.get? noteIndex with
                | some note =>
                    notes.set noteIndex
                      { note with deletedAt := some now, updatedAt := now }
                | none => notes
              some { cfg with booknotes := some updatedNotes }

/-- The `booknotes` collection held by a config snapshot (empty when the
config or the array is absent). -/
def booknotesOf (config : Option BookConfig) : List BookNote :=
  match config with
  | none => []
  | some cfg => (cfg.booknotes).getD []

/-! ### Plugin UI registries (`pluginStore.ts`) -/

/-- A plugin toolbar button; `data` stands for the remaining SDK fields
(icon, tooltip, click handler), irrelevant to ordering and keying. -/
structure ToolbarButton where
  id : String
  data : String
deriving DecidableEq

/-- A plugin context-menu item; `data` as for `ToolbarButton`. -/
structure ContextMenuItem where
  id : String
  data : String
deriving DecidableEq

/-- A plugin status-bar item; `data` as for `ToolbarButton`. -/
structure StatusBarItem where
  id : String
  data : String
deriving DecidableEq

/-- A registered plugin panel; `component` stands for the opaque React
component reference. -/
structure PluginPanelEntry where
  pluginId : String
  panelId : String
  component : String
  visible : Bool
deriving DecidableEq

/-- The pluginStore state: the id-keyed registries, the panel map (a JS
`Map`, modelled as an insertion-ordered association list) and the two
system flags. -/
structure PluginStoreState where
  pluginPanels : List (String × PluginPanelEntry)
  pluginToolbarButtons : List ToolbarButton
  pluginContextMenuItems : List ContextMenuItem
  pluginStatusBarItems : List StatusBarItem
  initialized : Bool
  pluginCount : Nat
deriving DecidableEq

/-- JS `Map.set`: updates the value in place when the key exists (keeping
its insertion-order position), otherwise appends a new entry. -/
def mapSet {α : Type} (m : List (String × α)) (k : String) (v : α) :
    List (String × α) :=
  if m.any (fun p => p.1 == k) then
    m.map (fun p => if p.1 == k then (k, v) else p)
  else m ++ [(k, v)]

/-- JS `Map.delete`: removes the entry with the key, if present. -/
def mapDelete {α : Type} (m : List (String × α)) (k : String) :
    List (String × α) :=
  m.filter (fun p => p.1 != k)

/-- `registerPanel`: inserts the panel entry (initially hidden) into the
panel map. The returned cleanup closure is `fun s => unregisterPanel s panelId`. -/
def registerPanel (s : PluginStoreState) (pluginId panelId component : String) :
    PluginStoreState :=
  let entry : PluginPanelEntry :=
    { pluginId := pluginId, panelId := panelId, component := component,
      visible := false }
  { s with pluginPanels := mapSet s.pluginPanels panelId entry }

/-- `unregisterPanel`: deletes the panel entry by id. -/
def unregisterPanel (s : PluginStoreState) (panelId : String) :
    PluginStoreState :=
  { s with pluginPanels := mapDelete s.pluginPanels panelId }

/-- `registerToolbarButton`: filters out any button with the same id, then
appends the new button at the end. The returned cleanup closure is
`fun s => unregisterToolbarButton s button.id`. -/
def registerToolbarButton (s : PluginStoreState) (button : ToolbarButton) :
    PluginStoreState :=
  { s with pluginToolbarButtons :=
      (s.pluginToolbarButtons.filter (fun b => b.id != button.id)) ++ [button] }

/-- `unregisterToolbarButton`: removes the button with the id. -/
def unregisterToolbarButton (s : PluginStoreState) (buttonId : String) :
    PluginStoreState :=
  { s with pluginToolbarButtons :=
      s.pluginToolbarButtons.filter (fun b => b.id != buttonId) }

/-- `registerContextMenuItem`: same replace-then-append pattern. -/
def registerContextMenuItem (s : PluginStoreState) (item : ContextMenuItem) :
    PluginStoreState :=
  { s with pluginContextMenuItems :=
      (s.pluginContextMenuItems.filter (fun i => i.id != item.id)) ++ [item] }

/-- `unregisterContextMenuItem`: removes the item with the id. -/
def unregisterContextMenuItem (s : PluginStoreState) (itemId : String) :
    PluginStoreState :=
  { s with pluginContextMenuItems :=
      s.pluginContextMenuItems.filter (fun i => i.id != itemId) }

/-- `registerStatusBarItem`: same replace-then-append pattern. -/
def registerStatusBarItem (s : PluginStoreState) (item : StatusBarItem) :
    PluginStoreState :=
  { s with pluginStatusBarItems :=
      (s.pluginStatusBarItems.filter (fun i => i.id != item.id)) ++ [item] }

/-- `unregisterStatusBarItem`: removes the item with the id. -/
def unregisterStatusBarItem (s : PluginStoreState) (itemId : String) :
    PluginStoreState :=
  { s with pluginStatusBarItems :=
      s.pluginStatusBarItems.filter (fun i => i.id != itemId) }

/-! ### Plugin lifecycle service (`pluginInitService.ts`) -/

/-- A plugin manifest (identity fields the loop reads). -/
structure PluginManifest where
  id : String
  name : String
deriving DecidableEq

/-- One result of `loader.discoverPlugins`: the manifest path, the parsed
manifest (`none` when validation failed) and the recorded errors. -/
structure DiscoveredPlugin where
  manifestPath : String
  manifest : Option PluginManifest
  errors : List String
deriving DecidableEq

/-- The outcome of the `try` block up to and including
`loader.discoverPlugins`: either the discovered list, or an error thrown
inside the block (provider construction, loader construction or discovery),
which the outer `catch` of `initializePlugins` absorbs. -/
inductive DiscoveryOutcome where
  | ok (plugins : List DiscoveredPlugin)
  | thrown (msg : String)
deriving DecidableEq

/-- The store state `initializePlugins` leaves behind, plus the manifest
paths of the plugins that were successfully loaded and activated (the
iterations whose `loadPlugin(path, activate := true)` did not throw). -/
structure InitResult where
  initialized : Bool
  pluginCount : Nat
  activated : List String
deriving DecidableEq

/-- The per-plugin loop of `initializePlugins`: a plugin with a valid
manifest is loaded and activated; `loadOk path = false` means that
iteration's `loadPlugin` threw and was caught (skip, keep going); an invalid
manifest is skipped with a warning. Returns the loaded count and the
activated manifest paths in order. -/
def loadDiscovered (loadOk : String → Bool) :
    List DiscoveredPlugin → Nat × List String
  | [] => (0, [])
  | p :: rest =>
      match p.manifest with
      | some _ =>
          if loadOk p.manifestPath then
            let (c, a) := loadDiscovered loadOk rest
            (c + 1, p.manifestPath :: a)
          else loadDiscovered loadOk rest
      | none => loadDiscovered loadOk rest

/-- `initializePlugins` from `pluginInitService.ts`. `pluginsDir` is what
`getPluginsBaseDirectory` resolved ('' when unavailable — JS falsy, so the
load loop is skipped); every error of the `try` block lands in the outer
`catch`, which still sets the initialized flag. The function is total: no
path rethrows to the caller. -/
def initializePlugins (pluginsDir : String) (discovery : DiscoveryOutcome)
    (loadOk : String → Bool) : InitResult :=
  if pluginsDir = "" then
    { initialized := true, pluginCount := 0, activated := [] }
  else
    match discovery with
    | .thrown _ => { initialized := true, pluginCount := 0, activated := [] }
    | .ok plugins =>
        let (loadedCount, activated) := loadDiscovered loadOk plugins
        { initialized := true, pluginCount := loadedCount,
          activated := activated }

/-! ### Book data provider (`ReadestBookDataProvider.ts`,
`ReadestHostAPIProvider.ts`) -/

/-- A Readest `Book` record (the identity-relevant fields the mapper reads). -/
structure ReadestBook where
  hash : String
  title : String
  author : String
deriving DecidableEq

/-- An SDK `Book` as produced by `mapReadestBookToSDK` (identity-relevant
fields; the derived metadata block is formatting of the same record). -/
structure SDKBook where
  id : String
  title : String
  author : String
deriving DecidableEq

/-- `mapReadestBookToSDK` from `typeMappers.ts`, restricted to the
identity-relevant fields: `id` is the book hash. -/
def mapReadestBookToSDK (book : ReadestBook) : SDKBook :=
  { id := book.hash, title := book.title, author := book.author }

/-- A TOC entry (`TOCItem`): id (the section index it points at), label,
href and nested subitems. -/
inductive TOCItem where
  | mk (idNum : Int) (label : String) (href : String) (subitems : List TOCItem)

/-- The `id` of a TOC entry. -/
def TOCItem.idNum : TOCItem → Int
  | .mk i _ _ _ => i

/-- The `label` of a TOC entry. -/
def TOCItem.label : TOCItem → String
  | .mk _ l _ _ => l

mutual
/-- `flattenTOC` from `typeMappers.ts`: each item followed by its flattened
subitems, in order. -/
def flattenTOC : List TOCItem → List TOCItem
  | [] => []
  | item :: rest => flattenTOCItem item ++ flattenTOC rest

/-- One item of `flattenTOC`: the item, then its flattened subitems. -/
def flattenTOCItem : TOCItem → List TOCItem
  | .mk i l h subs => .mk i l h subs :: flattenTOC subs
end

/-- The `Document` a section's `createDocument()` resolves to, reduced to
what `mapSectionToSDKChapter` reads. -/
structure DocumentM where
  documentElementOuterHTML : Option String
  bodyTextContent : Option String
deriving DecidableEq

/-- A `SectionItem` of the book document; `doc` is what its
`createDocument()` resolves to (the host document engine is external). -/
structure SectionItem where
  href : Option String
  doc : DocumentM
deriving DecidableEq

/-- A `BookDoc`: raw content sections and the optional TOC. -/
structure BookDoc where
  sections : Option (List SectionItem)
  toc : Option (List TOCItem)

/-- The `BookData` triple `getBookData` returns for a key (the `config`
member is not read by the book provider). -/
structure BookData where
  book : Option ReadestBook
  bookDoc : Option BookDoc

/-- Host store state visible to the book capability: the live current book
key (what the injected `bookKeyAccessor` returns right now) and the
book-data store keyed by book key. -/
structure HostStores where
  currentBookKey : Option String
  bookData : List (String × BookData)

/-- The state a `ReadestBookDataProvider` instance holds: only the book key
given to its constructor (the accessors read the live stores). -/
structure BookProviderState where
  bookKey : String
deriving DecidableEq

/-- `ReadestHostAPIProvider.createBookAPI`: resolves the book-key accessor
once (`bookKeyAccessor() ?? ''`) and bakes that key into the provider it
constructs. -/
def createBookAPI (host : HostStores) : BookProviderState :=
  { bookKey := (host.currentBookKey).getD "" }

/-- `ReadestBookDataProvider.getCurrentBook`: reads the book-data store live
(`host` is the store state at call time), but under the key captured at
construction. -/
def getCurrentBook (p : BookProviderState) (host : HostStores) :
    Option SDKBook :=
  match host.bookData.lookup p.bookKey with
  | none => none
  | some data =>
      match data.book with
      | none => none
      | some book => some (mapReadestBookToSDK book)

/-- An SDK `Chapter` as produced by `mapSectionToSDKChapter`. -/
structure Chapter where
  index : Int
  title : String
  href : String
  html : String
  text : String
  wordCount : Nat
deriving DecidableEq

/-- `text.split(/\s+/).filter(Boolean).length`: the whitespace-separated
word count. -/
def countWords (text : String) : Nat :=
  ((text.split (fun c => c.isWhitespace)).filter (fun w => w != "")).length

/-- `mapSectionToSDKChapter` from `typeMappers.ts`. -/
def mapSectionToSDKChapter (index : Int) (sec : SectionItem) (doc : DocumentM)
    (title : String) : Chapter :=
  let html := (doc.documentElementOuterHTML).getD ""
  let text := (doc.bodyTextContent).getD ""
  { index := index
    title := title
    href := (sec.href).getD ""
    html := html
    text := text
    wordCount := countWords text }

/-- `ReadestBookDataProvider._findTitleForSection`: the label of the TOC
entry whose id equals the section index, else `Section <i+1>`. -/
def findTitleForSection (sectionIndex : Int) (bookDoc : BookDoc) : String :=
  match bookDoc.toc with
  | none => "Section " ++ intToDecimalString (sectionIndex + 1)
  | some toc =>
      match (flattenTOC toc).find? (fun t => t.idNum == sectionIndex) with
      | some item => item.label
      | none => "Section " ++ intToDecimalString (sectionIndex + 1)

/-- `ReadestBookDataProvider._loadChapter`: resolves the section document
and maps it to an SDK chapter. -/
def loadChapter (index : Int) (sec : SectionItem) (bookDoc : BookDoc) :
    Chapter :=
  mapSectionToSDKChapter index sec sec.doc (findTitleForSection index bookDoc)

/-- The failures `getChapter` throws. -/
inductive ChapterError where
  | bookNotAvailable
  | outOfRange (index : Int) (maxIndex : Int)
  | sectionUndefined (index : Int)
deriving DecidableEq

/-- `ReadestBookDataProvider.getChapter`: reads the book data live under the
captured key; errors when the document is unavailable, the index is outside
`[0, sections.length)`, or the section slot is undefined (unreachable for a
dense array). -/
def getChapter (p : BookProviderState) (host : HostStores) (index : Int) :
    Except ChapterError Chapter :=
  match host.bookData.lookup p.bookKey with
  | none => .error .bookNotAvailable
  | some data =>
      match data.bookDoc with
      | none => .error .bookNotAvailable
      | some bookDoc =>
          match bookDoc.sections with
          | none => .error .bookNotAvailable
          | some sections =>
              if index < 0 ∨ (sections.length : Int) ≤ index then
                .error (.outOfRange index ((sections.length : Int) - 1))
              else
                match sections.get? index.toNat with
                | none => .error (.sectionUndefined index)
                | some sec => .ok (loadChapter index sec bookDoc)

/-- `ReadestBookDataProvider.getChapterCount`:
`data?.bookDoc?.sections?.length ?? 0`. -/
def getChapterCount (p : BookProviderState) (host : HostStores) : Nat :=
  match host.bookData.lookup p.bookKey with
  | none => 0
  | some data =>
      match data.bookDoc with
      | none => 0
      | some bookDoc =>
          match bookDoc.sections with
          | none => 0
          | some sections => sections.length

/-- Whether a `getChapter` outcome is the out-of-range failure. -/
def isOutOfRangeErr : Except ChapterError Chapter → Bool
  | .error (.outOfRange _ _) => true
  | _ => false

/-! ### Sidecar process bridge (`TauriProcessSpawner.ts`) -/

/-- The closure state of one `createTauriProcessSpawner().spawn(...)` call:
the `killed` flag, whether `childKill` has been captured (the `await
cmd.spawn()` resolved), and whether a kill has actually been issued to the
underlying child process. -/
structure ProcState where
  killed : Bool
  childKillSet : Bool
  terminated : Bool
deriving DecidableEq

/-- The closure state right after `spawn` returns its handle. -/
def initialProcState : ProcState :=
  { killed := false, childKillSet := false, terminated := false }

/-- `SpawnedProcess.kill`: sets `killed`; issues the kill only when the
child is already captured; returns `true` in both cases (optimistic
success while the spawn is still in flight). -/
def killProcess (s : ProcState) : Bool × ProcState :=
  let s1 := { s with killed := true }
  if s1.childKillSet then (true, { s1 with terminated := true })
  else (true, s1)

/-- The tail of `spawnPromise` after `await cmd.spawn()` succeeds: captures
`childKill`, then issues the deferred kill if one was requested
(`if (killed && childKill) childKill()`). -/
def resolveSpawn (s : ProcState) : ProcState :=
  let s1 := { s with childKillSet := true }
  if s1.killed && s1.childKillSet then { s1 with terminated := true } else s1

/-- One observable step of the bridge around the `exitHandlers` array:
either `process.on('exit', handler)` pushes a handler (handlers are
identified by a number), or the command's `close` event fires with an exit
code and the closure calls every registered handler in array order. -/
inductive BridgeEvent where
  | registerExit (handlerId : Nat)
  | fireClose (code : Int)
deriving DecidableEq

/-- Bridge state: the `exitHandlers` array and the log of handler
invocations `(handlerId, code)` in the order they were made. -/
structure BridgeState where
  exitHandlers : List Nat
  deliveries : List (Nat × Int)
deriving DecidableEq

/-- One step: `on('exit', h)` appends to `exitHandlers`; a `close` event
with `code` invokes each handler in the array, in order. -/
def bridgeStep (s : BridgeState) : BridgeEvent → BridgeState
  | .registerExit h => { s with exitHandlers := s.exitHandlers ++ [h] }
  | .fireClose code =>
      { s with deliveries :=
          s.deliveries ++ s.exitHandlers.map (fun h => (h, code)) }

/-- Run a sequence of bridge events from the empty state `spawn` creates. -/
def bridgeRun (events : List BridgeEvent) : BridgeState :=
  events.foldl bridgeStep { exitHandlers := [], deliveries := [] }

/-- The exit codes delivered to one handler, in delivery order. -/
def deliveredTo (s : BridgeState) (h : Nat) : List Int :=
  (s.deliveries.filter (fun d => d.1 == h)).map (fun d => d.2)

/-! ### Helper lemmas -/

/-- `createAnnotation` appends the mapped note to the existing collection. -/
theorem createAnnotation_fst (config : Option BookConfig)
    (bookHash : Option String) (pid : String) (ann : SDKNewAnnotation)
    (now : Nat) (genId : String) :
    ( createAnnotation config bookHash pid ann now genId).1 =
      booknotesOf config ++ [ mapSDKAnnotationToBookNote ann bookHash none now genId] := by
  cases config <;> rfl

/-- `getAnnotations` without a chapter filter, unfolded. -/
theorem getAnnotations_none_def (notes : List BookNote) (pid : String) :
    getAnnotations (some { booknotes := some notes }) pid none =
      (notes.filter isActiveNote).map
        (fun note => mapBookNoteToSDKAnnotation note pid) := rfl

/-- `getAnnotations` with a chapter filter, unfolded. -/
theorem getAnnotations_some_def (notes : List BookNote) (pid : String)
    (ci : Int) :
    getAnnotations (some { booknotes := some notes }) pid (some ci) =
      ((notes.filter isActiveNote).map
        (fun note => mapBookNoteToSDKAnnotation note pid)).filter
        (fun a => a.chapterIndex == ci) := rfl

/-- An active member of the stored notes is listed (no chapter filter). -/
theorem mem_getAnnotations_none (notes : List BookNote) (pid : String)
    (note : BookNote) (hmem : note ∈ notes)
    (hact : isActiveNote note = true) :
    mapBookNoteToSDKAnnotation note pid ∈
      getAnnotations (some { booknotes := some notes }) pid none := by
  rw [getAnnotations_none_def]
  exact List.mem_map_of_mem _ (List.mem_filter.mpr ⟨hmem, hact⟩)

/-- Filtering twice with the same predicate equals filtering once. -/
theorem filter_self_idem {α : Type} (p : α → Bool) (l : List α) :
    (l.filter p).filter p = l.filter p := by
  induction l with
  | nil => rfl
  | cons a t ih => by_cases h : p a <;> simp [List.filter_cons, h, ih]

/-- Mapping an id projection commutes with filtering on that id. -/
theorem map_id_filter_ne {α : Type} (f : α → String) (l : List α) (v : String) :
    (l.filter (fun x => f x != v)).map f = (l.map f).filter (fun i => i != v) := by
  induction l with
  | nil => rfl
  | cons a t ih => by_cases h : f a = v <;> simp [List.filter_cons, h, ih]

/-- The load loop activates every discovered plugin whose manifest is valid
and whose load succeeds, independently of its siblings. -/
theorem loadDiscovered_mem (loadOk : String → Bool)
    (plugins : List DiscoveredPlugin) (m1 : DiscoveredPlugin)
    (hmem : m1 ∈ plugins) (hman : (m1.manifest).isSome = true)
    (hload : loadOk m1.manifestPath = true) :
    m1.manifestPath ∈ (loadDiscovered loadOk plugins).2 := by
  induction plugins with
  | nil => cases hmem
  | cons p rest ih =>
      rcases List.mem_cons.mp hmem with rfl | hmem'
      · rcases hm : m1.manifest with _ | mf
        · rw [hm] at hman; simp at hman
        · rcases hrest : loadDiscovered loadOk rest with ⟨c, a⟩
          simp [loadDiscovered, hm, hload, hrest]
      · rcases hm : p.manifest with _ | mf
        · simp only [loadDiscovered, hm]
          exact ih hmem'
        · by_cases hl : loadOk p.manifestPath
          · rcases hrest : loadDiscovered loadOk rest with ⟨c, a⟩
            have hin := ih hmem'
            rw [hrest] at hin
            simp [loadDiscovered, hm, hl, hrest]
            exact Or.inr hin
          · simp only [loadDiscovered, hm, hl, if_neg]
            exact ih hmem'

/-! ### The claims -/

/-- C9: mapping a Readest note type to the SDK and back is the identity on
all three Readest types, while the reverse composition sends the SDK type
'footnote' to 'highlight': an annotation created through `createAnnotation`
with type 'footnote' is returned, and subsequently listed, with type
'highlight'. -/
theorem c9_note_type_round_trip :
    (∀ t : BookNoteType,
        mapSDKTypeToReadestNoteType (mapReadestNoteTypeToSDK t) = t) ∧
    mapReadestNoteTypeToSDK (mapSDKTypeToReadestNoteType SDKNoteType.footnote) =
      SDKNoteType.highlight ∧
    ∀ (config : Option BookConfig) (bookHash : Option String) (pid : String)
      (ann : SDKNewAnnotation) (now : Nat) (genId : String),
      ann.type = SDKNoteType.footnote →
      ( createAnnotation config bookHash pid ann now genId).2.type =
          SDKNoteType.highlight ∧
      ∃ a ∈ getAnnotations
          (some { booknotes :=
                    some ( createAnnotation config bookHash pid ann now genId).1 })
          pid none, a.id = genId ∧ a.type = SDKNoteType.highlight := by
  refine ⟨fun t => by cases t <;> rfl, rfl, ?_⟩
  intro config bookHash pid ann now genId hft
  have htype : ( mapSDKAnnotationToBookNote ann bookHash none now genId).type =
      BookNoteType.annot := by
    simp [ mapSDKAnnotationToBookNote, hft, mapSDKTypeToReadestNoteType]
  refine ⟨?_, ?_⟩
  · show ( mapBookNoteToSDKAnnotation
        ( mapSDKAnnotationToBookNote ann bookHash none now genId) pid).type = _
    simp [ mapBookNoteToSDKAnnotation, htype, mapReadestNoteTypeToSDK]
  · refine ⟨ mapBookNoteToSDKAnnotation
        ( mapSDKAnnotationToBookNote ann bookHash none now genId) pid, ?_, rfl, ?_⟩
    · rw [createAnnotation_fst]
      exact mem_getAnnotations_none _ _ _ (by simp) rfl
    · simp [ mapBookNoteToSDKAnnotation, htype, mapReadestNoteTypeToSDK]

/-- C9 witness: a concrete 'footnote' annotation instantiating the
hypotheses of `c9_note_type_round_trip`. -/
theorem c9_witness :
    ({ chapterIndex := 0, type := SDKNoteType.footnote, content := "x",
       style := none, metadata := [] } : SDKNewAnnotation).type =
        SDKNoteType.footnote ∧
    ( createAnnotation none none "p"
        { chapterIndex := 0, type := SDKNoteType.footnote, content := "x",
          style := none, metadata := [] } 7 "id7").2.type =
      SDKNoteType.highlight :=
  ⟨rfl,
    ((c9_note_type_round_trip.2.2 none none "p"
      { chapterIndex := 0, type := SDKNoteType.footnote, content := "x",
        style := none, metadata := [] } 7 "id7" rfl).1)⟩

/-- C4: a kill requested on the handle while the spawn is still in flight
returns optimistic success, and the moment the spawn resolves the deferred
kill is issued to the underlying child: the request is never lost and no
process is left running. -/
theorem c4_deferred_kill (s : ProcState) :
    (killProcess s).1 = true ∧
    (resolveSpawn (killProcess s).2).terminated = true := by
  by_cases h : s.childKillSet <;> simp [killProcess, resolveSpawn, h]

/-- C8: the disposal token returned by each register operation performs the
matching unregister idempotently — invoking it a second time leaves the
registry state exactly as after the first invocation. -/
theorem c8_disposal_token_idempotent :
    (∀ (s : PluginStoreState) (button : ToolbarButton),
        unregisterToolbarButton
            (unregisterToolbarButton (registerToolbarButton s button) button.id)
            button.id =
          unregisterToolbarButton (registerToolbarButton s button) button.id) ∧
    (∀ (s : PluginStoreState) (item : ContextMenuItem),
        unregisterContextMenuItem
            (unregisterContextMenuItem (registerContextMenuItem s item) item.id)
            item.id =
          unregisterContextMenuItem (registerContextMenuItem s item) item.id) ∧
    (∀ (s : PluginStoreState) (item : StatusBarItem),
        unregisterStatusBarItem
            (unregisterStatusBarItem (registerStatusBarItem s item) item.id)
            item.id =
          unregisterStatusBarItem (registerStatusBarItem s item) item.id) ∧
    (∀ (s : PluginStoreState) (pluginId panelId component : String),
        unregisterPanel
            (unregisterPanel (registerPanel s pluginId panelId component) panelId)
            panelId =
          unregisterPanel (registerPanel s pluginId panelId component) panelId) := by
  refine ⟨?_, ?_, ?_, ?_⟩ <;> intros <;>
    simp [unregisterToolbarButton, registerToolbarButton,
      unregisterContextMenuItem, registerContextMenuItem,
      unregisterStatusBarItem, registerStatusBarItem,
      unregisterPanel, registerPanel, mapDelete, filter_self_idem]

/-- C7: for every id-keyed registry (toolbar buttons, context-menu items,
status-bar items), registering an entry whose id already exists replaces
the prior entry — the remaining entries keep their original relative order
and the new entry is appended at the end; in particular registering ids
a, b, c and then re-registering id b yields the order [a, c, b]. -/
theorem c7_registry_replace_and_reorder :
    (∀ (s : PluginStoreState) (button : ToolbarButton),
        (registerToolbarButton s button).pluginToolbarButtons.map (fun b => b.id) =
          ((s.pluginToolbarButtons.map (fun b => b.id)).filter
            (fun i => i != button.id)) ++ [button.id]) ∧
    (∀ (s : PluginStoreState) (item : ContextMenuItem),
        (registerContextMenuItem s item).pluginContextMenuItems.map (fun i => i.id) =
          ((s.pluginContextMenuItems.map (fun i => i.id)).filter
            (fun i => i != item.id)) ++ [item.id]) ∧
    (∀ (s : PluginStoreState) (item : StatusBarItem),
        (registerStatusBarItem s item).pluginStatusBarItems.map (fun i => i.id) =
          ((s.pluginStatusBarItems.map (fun i => i.id)).filter
            (fun i => i != item.id)) ++ [item.id]) ∧
    (∀ (s : PluginStoreState) (ba bb bc bb2 : ToolbarButton),
        s.pluginToolbarButtons = [] → bb2.id = bb.id → ba.id ≠ bb.id →
        bb.id ≠ bc.id → ba.id ≠ bc.id →
        (registerToolbarButton (registerToolbarButton (registerToolbarButton
            (registerToolbarButton s ba) bb) bc) bb2).pluginToolbarButtons =
          [ba, bc, bb2]) ∧
    (∀ (s : PluginStoreState) (ia ib ic ib2 : ContextMenuItem),
        s.pluginContextMenuItems = [] → ib2.id = ib.id → ia.id ≠ ib.id →
        ib.id ≠ ic.id → ia.id ≠ ic.id →
        (registerContextMenuItem (registerContextMenuItem (registerContextMenuItem
            (registerContextMenuItem s ia) ib) ic) ib2).pluginContextMenuItems =
          [ia, ic, ib2]) ∧
    (∀ (s : PluginStoreState) (ia ib ic ib2 : StatusBarItem),
        s.pluginStatusBarItems = [] → ib2.id = ib.id → ia.id ≠ ib.id →
        ib.id ≠ ic.id → ia.id ≠ ic.id →
        (registerStatusBarItem (registerStatusBarItem (registerStatusBarItem
            (registerStatusBarItem s ia) ib) ic) ib2).pluginStatusBarItems =
          [ia, ic, ib2]) := by
  refine ⟨?_, ?_, ?_, ?_, ?_, ?_⟩
  · intro s button
    simp [registerToolbarButton, map_id_filter_ne]
  · intro s item
    simp [registerContextMenuItem, map_id_filter_ne]
  · intro s item
    simp [registerStatusBarItem, map_id_filter_ne]
  · intro s ba bb bc bb2 h0 hb2 hab hbc hac
    have hcb : bc.id ≠ bb.id := fun hh => hbc hh.symm
    simp [registerToolbarButton, h0, hb2, List.filter_cons, hab, hbc, hac, hcb]
  · intro s ia ib ic ib2 h0 hb2 hab hbc hac
    have hcb : ic.id ≠ ib.id := fun hh => hbc hh.symm
    simp [registerContextMenuItem, h0, hb2, List.filter_cons, hab, hbc, hac, hcb]
  · intro s ia ib ic ib2 h0 hb2 hab hbc hac
    have hcb : ic.id ≠ ib.id := fun hh => hbc hh.symm
    simp [registerStatusBarItem, h0, hb2, List.filter_cons, hab, hbc, hac, hcb]

/-- C7 witness: three concrete toolbar buttons with ids a, b, c, then a
re-registration of id b, instantiating `c7_registry_replace_and_reorder`. -/
theorem c7_witness :
    (({ pluginPanels := [], pluginToolbarButtons := [],
        pluginContextMenuItems := [], pluginStatusBarItems := [],
        initialized := false, pluginCount := 0 } : PluginStoreState).pluginToolbarButtons = []) ∧
    (registerToolbarButton (registerToolbarButton (registerToolbarButton
        (registerToolbarButton
          { pluginPanels := [], pluginToolbarButtons := [],
            pluginContextMenuItems := [], pluginStatusBarItems := [],
            initialized := false, pluginCount := 0 }
          { id := "a", data := "A" })
        { id := "b", data := "B" })
        { id := "c", data := "C" })
        { id := "b", data := "B2" }).pluginToolbarButtons =
      [{ id := "a", data := "A" }, { id := "c", data := "C" },
       { id := "b", data := "B2" }] :=
  ⟨rfl,
    c7_registry_replace_and_reorder.2.2.2.1
      { pluginPanels := [], pluginToolbarButtons := [],
        pluginContextMenuItems := [], pluginStatusBarItems := [],
        initialized := false, pluginCount := 0 }
      { id := "a", data := "A" } { id := "b", data := "B" }
      { id := "c", data := "C" } { id := "b", data := "B2" }
      rfl rfl (by decide) (by decide) (by decide)⟩

/-- C2: `initializePlugins` never propagates an error — the initialized flag
ends up true for every discovery outcome, including an internal discovery
error and the zero-plugin case — and a discovered plugin with a valid
manifest whose load succeeds is activated regardless of a sibling manifest
whose load fails. -/
theorem c2_initialize_isolated :
    (∀ (pluginsDir : String) (discovery : DiscoveryOutcome)
        (loadOk : String → Bool),
        (initializePlugins pluginsDir discovery loadOk).initialized = true) ∧
    (∀ (pluginsDir : String) (plugins : List DiscoveredPlugin)
        (loadOk : String → Bool) (m1 m2 : DiscoveredPlugin),
        pluginsDir ≠ "" → m1 ∈ plugins → (m1.manifest).isSome = true →
        loadOk m1.manifestPath = true → m2 ∈ plugins →
        loadOk m2.manifestPath = false →
        m1.manifestPath ∈
          (initializePlugins pluginsDir (DiscoveryOutcome.ok plugins)
            loadOk).activated) := by
  constructor
  · intro dir disc lo
    by_cases h : dir = ""
    · simp [initializePlugins, h]
    · cases disc with
      | ok plugins =>
          rcases hr : loadDiscovered lo plugins with ⟨c, a⟩
          simp [initializePlugins, h, hr]
      | thrown m => simp [initializePlugins, h]
  · intro dir plugins lo m1 m2 hdir hm1 hman hl1 hm2 hl2
    rcases hr : loadDiscovered lo plugins with ⟨c, a⟩
    have hin := loadDiscovered_mem lo plugins m1 hm1 hman hl1
    rw [hr] at hin
    simp [initializePlugins, hdir, hr]
    exact hin

/-- C2 witness: two concrete manifests discovered together, the first loads
fine and the second fails to load, instantiating `c2_initialize_isolated`. -/
theorem c2_witness :
    (initializePlugins "plugins"
        (DiscoveryOutcome.ok
          [{ manifestPath := "p1", manifest := some { id := "a", name := "A" },
             errors := [] },
           { manifestPath := "p2", manifest := some { id := "b", name := "B" },
             errors := [] }])
        (fun path => path == "p1")).initialized = true ∧
    "p1" ∈
      (initializePlugins "plugins"
        (DiscoveryOutcome.ok
          [{ manifestPath := "p1", manifest := some { id := "a", name := "A" },
             errors := [] },
           { manifestPath := "p2", manifest := some { id := "b", name := "B" },
             errors := [] }])
        (fun path => path == "p1")).activated :=
  ⟨c2_initialize_isolated.1 "plugins" _ _,
    c2_initialize_isolated.2 "plugins"
      [{ manifestPath := "p1", manifest := some { id := "a", name := "A" },
         errors := [] },
       { manifestPath := "p2", manifest := some { id := "b", name := "B" },
         errors := [] }]
      (fun path => path == "p1")
      { manifestPath := "p1", manifest := some { id := "a", name := "A" },
        errors := [] }
      { manifestPath := "p2", manifest := some { id := "b", name := "B" },
        errors := [] }
      (by decide) (by simp) rfl rfl (by simp) rfl⟩

/-- C1: the book capability does NOT re-resolve the active book key at call
time — `createBookAPI` snapshots the accessor's value into the provider, so
after the host's active key changes from "book-1" to "book-2", a
`getCurrentBook` read still returns the data of "book-1", not of the newly
active "book-2". This evaluates the code at the failing input of the claim. -/
theorem c1_stale_book_key_eval :
    getCurrentBook
        (createBookAPI
          { currentBookKey := some "book-1"
            bookData :=
              [("book-1",
                { book := some { hash := "h1", title := "One", author := "A" },
                  bookDoc := none }),
               ("book-2",
                { book := some { hash := "h2", title := "Two", author := "B" },
                  bookDoc := none })] })
        { currentBookKey := some "book-2"
          bookData :=
            [("book-1",
              { book := some { hash := "h1", title := "One", author := "A" },
                bookDoc := none }),
             ("book-2",
              { book := some { hash := "h2", title := "Two", author := "B" },
                bookDoc := none })] } =
      some { id := "h1", title := "One", author := "A" } ∧
    ({ id := "h1", title := "One", author := "A" } : SDKBook) ≠
      { id := "h2", title := "Two", author := "B" } := by
  exact ⟨rfl, by decide⟩

/-- Handlers absent from the array receive nothing from one close event. -/
theorem filter_pair_count_zero (hs : List Nat) (h : Nat) (c : Int)
    (hc : hs.count h = 0) :
    (hs.map (fun x => (x, c))).filter (fun d => d.1 == h) = [] := by
  induction hs with
  | nil => rfl
  | cons a t ih =>
      by_cases hah : a = h
      · subst hah
        simp [List.count_cons] at hc
      · rw [List.count_cons] at hc
        simp [hah] at hc
        simp [List.filter_cons, hah, ih hc]

/-- A handler present once in the array is invoked exactly once by one close
event, with that event's code. -/
theorem filter_pair_count_one (hs : List Nat) (h : Nat) (c : Int)
    (hc : hs.count h = 1) :
    ((hs.map (fun x => (x, c))).filter (fun d => d.1 == h)).map
        (fun d => d.2) = [c] := by
  induction hs with
  | nil => simp at hc
  | cons a t ih =>
      by_cases hah : a = h
      · subst hah
        rw [List.count_cons] at hc
        simp at hc
        simp [List.filter_cons, filter_pair_count_zero t a c hc]
      · rw [List.count_cons] at hc
        simp [hah] at hc
        simp [List.filter_cons, hah, ih hc]

/-- Registration events only extend the handler array. -/
theorem bridge_run_registers (regs : List Nat) (s : BridgeState) :
    List.foldl bridgeStep s (regs.map BridgeEvent.registerExit) =
      { exitHandlers := s.exitHandlers ++ regs, deliveries := s.deliveries } := by
  induction regs generalizing s with
  | nil => simp
  | cons a t ih => simp [bridgeStep, ih]

/-- Close events append, for each event in order, one invocation per
registered handler; a handler registered once receives exactly the fired
codes, in order, after whatever was already delivered to it. -/
theorem bridge_run_fires (fires : List Int) (hs : List Nat)
    (ds : List (Nat × Int)) (h : Nat) (hc : hs.count h = 1) :
    deliveredTo
        (List.foldl bridgeStep { exitHandlers := hs, deliveries := ds }
          (fires.map BridgeEvent.fireClose)) h =
      deliveredTo { exitHandlers := hs, deliveries := ds } h ++ fires := by
  induction fires generalizing ds with
  | nil => simp
  | cons c rest ih =>
      simp only [List.map_cons, List.foldl_cons, bridgeStep]
      rw [ih (ds ++ hs.map (fun x => (x, c)))]
      simp only [deliveredTo, List.filter_append, List.map_append]
      rw [filter_pair_count_one hs h c hc]
      simp

/-- C5: an exit handler registered on the handle before the spawn resolves
receives every close event fired after resolution, in emission order, with
no loss and no duplication — in particular, when the process exits once
with code 0, the handler fires exactly once with code 0. -/
theorem c5_exit_event_completeness (regs : List Nat) (fires : List Int)
    (h : Nat) (hc : regs.count h = 1) :
    deliveredTo
        (bridgeRun (regs.map BridgeEvent.registerExit ++
          fires.map BridgeEvent.fireClose)) h = fires := by
  unfold bridgeRun
  rw [List.foldl_append, bridge_run_registers]
  simp only [List.nil_append]
  rw [bridge_run_fires fires regs [] h hc]
  simp [deliveredTo]

/-- C5 witness: one handler registered before resolution, one exit with
code 0 fired after resolution — the handler receives exactly [0]. -/
theorem c5_witness :
    ([7] : List Nat).count 7 = 1 ∧
    deliveredTo
        (bridgeRun (([7] : List Nat).map BridgeEvent.registerExit ++
          ([0] : List Int).map BridgeEvent.fireClose)) 7 = [0] :=
  ⟨by decide, c5_exit_event_completeness [7] [0] 7 (by decide)⟩

/-- C6: with a book document of at least one section loaded, `getChapter`
fails with the out-of-range error at -1 and at `chapterCount`, succeeds at
`chapterCount - 1`, and in general fails with out-of-range exactly when the
index is outside `[0, chapterCount)`. -/
theorem c6_chapter_bounds (p : BookProviderState) (host : HostStores)
    (hcount : 1 ≤ getChapterCount p host) :
    isOutOfRangeErr (getChapter p host (-1)) = true ∧
    isOutOfRangeErr (getChapter p host (getChapterCount p host : Int)) = true ∧
    (getChapter p host ((getChapterCount p host : Int) - 1)).isOk = true ∧
    ∀ index : Int,
      isOutOfRangeErr (getChapter p host index) = true ↔
        (index < 0 ∨ (getChapterCount p host : Int) ≤ index) := by
  rcases hl : host.bookData.lookup p.bookKey with _ | data
  · simp [getChapterCount, hl] at hcount
  rcases hd : data.bookDoc with _ | bookDoc
  · simp [getChapterCount, hl, hd] at hcount
  rcases hs : bookDoc.sections with _ | sections
  · simp [getChapterCount, hl, hd, hs] at hcount
  have hlen : getChapterCount p host = sections.length := by
    simp [getChapterCount, hl, hd, hs]
  rw [hlen] at hcount ⊢
  have hch : ∀ i : Int,
      getChapter p host i =
        (if i < 0 ∨ (sections.length : Int) ≤ i then
          Except.error (ChapterError.outOfRange i ((sections.length : Int) - 1))
        else
          match sections.get? i.toNat with
          | none => Except.error (ChapterError.sectionUndefined i)
          | some sec => Except.ok (loadChapter i sec bookDoc)) := by
    intro i
    simp [getChapter, hl, hd, hs]
  refine ⟨?_, ?_, ?_, ?_⟩
  · rw [hch, if_pos (Or.inl (by norm_num))]
    rfl
  · rw [hch, if_pos (Or.inr (le_refl _))]
    rfl
  · rw [hch]
    have hc1 : ¬ (((sections.length : Int) - 1) < 0 ∨
        (sections.length : Int) ≤ (sections.length : Int) - 1) := by omega
    rw [if_neg hc1]
    have hlt : ((sections.length : Int) - 1).toNat < sections.length := by omega
    rw [List.get?_eq_get hlt]
    rfl
  · intro index
    by_cases hio : index < 0 ∨ (sections.length : Int) ≤ index
    · rw [hch, if_pos hio]
      simp [isOutOfRangeErr, hio]
    · rw [hch, if_neg hio]
      push_neg at hio
      have hlt : index.toNat < sections.length := by omega
      rw [List.get?_eq_get hlt]
      simp [isOutOfRangeErr]
      omega

/-- C6 witness: a one-section book document, instantiating
`c6_chapter_bounds`. -/
theorem c6_witness :
    1 ≤ getChapterCount { bookKey := "k" }
        { currentBookKey := some "k"
          bookData :=
            [("k",
              { book := none
                bookDoc := some
                  { sections := some
                      [{ href := none
                         doc := { documentElementOuterHTML := none
                                  bodyTextContent := none } }]
                    toc := none } })] } ∧
    (isOutOfRangeErr (getChapter { bookKey := "k" }
        { currentBookKey := some "k"
          bookData :=
            [("k",
              { book := none
                bookDoc := some
                  { sections := some
                      [{ href := none
                         doc := { documentElementOuterHTML := none
                                  bodyTextContent := none } }]
                    toc := none } })] } (-1)) = true ∧
     isOutOfRangeErr (getChapter { bookKey := "k" }
        { currentBookKey := some "k"
          bookData :=
            [("k",
              { book := none
                bookDoc := some
                  { sections := some
                      [{ href := none
                         doc := { documentElementOuterHTML := none
                                  bodyTextContent := none } }]
                    toc := none } })] }
        (getChapterCount { bookKey := "k" }
          { currentBookKey := some "k"
            bookData :=
              [("k",
                { book := none
                  bookDoc := some
                    { sections := some
                        [{ href := none
                           doc := { documentElementOuterHTML := none
                                    bodyTextContent := none } }]
                      toc := none } })] } : Int)) = true ∧
     (getChapter { bookKey := "k" }
        { currentBookKey := some "k"
          bookData :=
            [("k",
              { book := none
                bookDoc := some
                  { sections := some
                      [{ href := none
                         doc := { documentElementOuterHTML := none
                                  bodyTextContent := none } }]
                    toc := none } })] }
        ((getChapterCount { bookKey := "k" }
          { currentBookKey := some "k"
            bookData :=
              [("k",
                { book := none
                  bookDoc := some
                    { sections := some
                        [{ href := none
                           doc := { documentElementOuterHTML := none
                                    bodyTextContent := none } }]
                      toc := none } })] } : Int) - 1)).isOk = true ∧
     ∀ index : Int,
       isOutOfRangeErr (getChapter { bookKey := "k" }
          { currentBookKey := some "k"
            bookData :=
              [("k",
                { book := none
                  bookDoc := some
                    { sections := some
                        [{ href := none
                           doc := { documentElementOuterHTML := none
                                    bodyTextContent := none } }]
                      toc := none } })] } index) = true ↔
         (index < 0 ∨
          (getChapterCount { bookKey := "k" }
            { currentBookKey := some "k"
              bookData :=
                [("k",
                  { book := none
                    bookDoc := some
                      { sections := some
                          [{ href := none
                             doc := { documentElementOuterHTML := none
                                      bodyTextContent := none } }]
                        toc := none } })] } : Int) ≤ index)) :=
  ⟨by decide,
    c6_chapter_bounds { bookKey := "k" }
      { currentBookKey := some "k"
        bookData :=
          [("k",
            { book := none
              bookDoc := some
                { sections := some
                    [{ href := none
                       doc := { documentElementOuterHTML := none
                                bodyTextContent := none } }]
                  toc := none } })] }
      (by decide)⟩

/-- Each decimal digit character is a digit. -/
theorem digitChar_isDigit (d : Nat) (h : d < 10) :
    (digitChar d).isDigit = true := by
  interval_cases d <;> decide

/-- Printing then reading one decimal digit is the identity. -/
theorem digitVal_digitChar (d : Nat) (h : d < 10) :
    digitVal (digitChar d) = d := by
  interval_cases d <;> rfl

/-- A number's decimal representation is never empty. -/
theorem natDigits_ne_nil (m : Nat) : natDigits m ≠ [] := by
  rw [natDigits]
  split <;> simp

/-- Every character of a decimal representation is a digit. -/
theorem natDigits_all_isDigit (m : Nat) :
    ∀ c ∈ natDigits m, c.isDigit = true := by
  induction m using Nat.strong_induction_on with
  | _ m ih =>
      rw [natDigits]
      by_cases h : m < 10
      · simp only [if_pos h, List.mem_singleton]
        intro c hc
        subst hc
        exact digitChar_isDigit m h
      · simp only [if_neg h]
        intro c hc
        rcases List.mem_append.mp hc with hc1 | hc2
        · exact ih (m / 10) (Nat.div_lt_self (by omega) (by omega)) c hc1
        · rw [List.mem_singleton.mp hc2]
          exact digitChar_isDigit (m % 10) (Nat.mod_lt _ (by omega))

/-- `parseInt` over an extended digit run takes the last digit as the least
significant. -/
theorem parseDigits_append (xs : List Char) (c : Char) :
    parseDigits (xs ++ [c]) = (parseDigits xs) * 10 + digitVal c := by
  simp [parseDigits, List.foldl_append]

/-- Printing a natural number in decimal and parsing it back is the
identity: the `parseInt` in `extractSectionIndexFromCFI` recovers the
number the template literal printed. -/
theorem parseDigits_natDigits (m : Nat) : parseDigits (natDigits m) = m := by
  induction m using Nat.strong_induction_on with
  | _ m ih =>
      rw [natDigits]
      by_cases h : m < 10
      · simp [if_pos h, parseDigits, digitVal_digitChar m h]
      · rw [if_neg h, parseDigits_append,
          ih (m / 10) (Nat.div_lt_self (by omega) (by omega)),
          digitVal_digitChar (m % 10) (Nat.mod_lt _ (by omega))]
        omega

/-- The regex digit run stops exactly at the `!` terminator of the
synthesized CFI. -/
theorem takeWhile_digits_bang (ds rest : List Char)
    (hd : ∀ c ∈ ds, c.isDigit = true) :
    (ds ++ '!' :: rest).takeWhile Char.isDigit = ds := by
  induction ds with
  | nil => simp [List.takeWhile_cons]
  | cons a t ih =>
      simp only [List.cons_append, List.takeWhile_cons, hd a (by simp)]
      rw [ih (fun c hc => hd c (by simp [hc]))]
      simp

/-- The regex pattern does not match at a position whose character is not
a slash. -/
theorem cfiMatchAt_not_slash (c : Char) (cs : List Char) (hc : c ≠ '/') :
    cfiMatchAt (c :: cs) = none := by
  unfold cfiMatchAt
  split
  · rename_i rest heq
    simp at heq
    exact absurd heq.1 hc
  · rfl

/-- The scan skips a position where the pattern does not match. -/
theorem cfiScan_cons_of_not_slash (c : Char) (cs : List Char)
    (hc : c ≠ '/') : cfiScan (c :: cs) = cfiScan cs := by
  rw [cfiScan, cfiMatchAt_not_slash c cs hc]

/-- The scan of the synthesized CFI finds exactly the printed digit run. -/
theorem cfiScan_synth (ds : List Char) (rest : List Char)
    (hne : ds ≠ []) (hdig : ∀ c ∈ ds, c.isDigit = true) :
    cfiScan ('e' :: 'p' :: 'u' :: 'b' :: 'c' :: 'f' :: 'i' :: '(' :: '/' ::
        '6' :: '/' :: (ds ++ '!' :: rest)) = some ds := by
  rw [cfiScan_cons_of_not_slash _ _ (by decide),
    cfiScan_cons_of_not_slash _ _ (by decide),
    cfiScan_cons_of_not_slash _ _ (by decide),
    cfiScan_cons_of_not_slash _ _ (by decide),
    cfiScan_cons_of_not_slash _ _ (by decide),
    cfiScan_cons_of_not_slash _ _ (by decide),
    cfiScan_cons_of_not_slash _ _ (by decide),
    cfiScan_cons_of_not_slash _ _ (by decide)]
  have hmatch : cfiMatchAt ('/' :: '6' :: '/' :: (ds ++ '!' :: rest)) =
      some ds := by
    show (let t := (ds ++ '!' :: rest).takeWhile Char.isDigit
          if t.isEmpty then none else some t) = some ds
    rw [takeWhile_digits_bang ds rest hdig]
    simp [List.isEmpty_iff, hne]
  rw [cfiScan, hmatch]

/-- Extracting the section index from the CFI synthesized for chapter index
`n ≥ 0` recovers exactly `n`. -/
theorem extract_synth (n : Int) (hn : 0 ≤ n) :
    extractSectionIndexFromCFI
        ("epubcfi(/6/" ++ intToDecimalString ((n + 1) * 2) ++ "!)") = n := by
  have hpos : ¬ ((n + 1) * 2 < 0) := by omega
  rw [intToDecimalString, if_neg hpos]
  have hdata : ("epubcfi(/6/" ++ String.mk (natDigits ((n + 1) * 2).toNat)
      ++ "!)").data =
      'e' :: 'p' :: 'u' :: 'b' :: 'c' :: 'f' :: 'i' :: '(' :: '/' :: '6' ::
        '/' :: (natDigits ((n + 1) * 2).toNat ++ '!' :: [')']) := by
    simp [String.data_append]
  have hne : ("epubcfi(/6/" ++ String.mk (natDigits ((n + 1) * 2).toNat)
      ++ "!)") ≠ "" := by
    intro h
    have hdd := congrArg String.data h
    rw [hdata] at hdd
    simp at hdd
  rw [extractSectionIndexFromCFI, if_neg hne, hdata,
    cfiScan_synth _ _ (natDigits_ne_nil _) (natDigits_all_isDigit _)]
  simp only [parseDigits_natDigits]
  have hcast : ((((n + 1) * 2).toNat : Int)) = (n + 1) * 2 :=
    Int.toNat_of_nonneg (by omega)
  have hdiv : (((n + 1) * 2 : Int)) / 2 - 1 = n := by omega
  rw [hcast, hdiv]
  exact max_eq_right hn

/-- C10: for a new annotation with chapter index `n ≥ 0` carrying neither an
explicit CFI nor a 'cfi' metadata entry, `mapSDKAnnotationToBookNote`
synthesizes the CFI `epubcfi(/6/<(n+1)*2>!)`, `extractSectionIndexFromCFI`
recovers exactly `n` from it, and the annotation created through
`createAnnotation` is therefore listed by `getAnnotations` filtered to
chapter `n`. -/
theorem c10_synthesized_cfi_round_trip (ann : SDKNewAnnotation)
    (bookHash : Option String) (now : Nat) (genId : String)
    (config : Option BookConfig) (pid : String)
    (hn : 0 ≤ ann.chapterIndex)
    (hmeta : ann.metadata.lookup "cfi" = none) :
    ( mapSDKAnnotationToBookNote ann bookHash none now genId).cfi =
        "epubcfi(/6/" ++ intToDecimalString ((ann.chapterIndex + 1) * 2) ++
          "!)" ∧
    extractSectionIndexFromCFI
        (( mapSDKAnnotationToBookNote ann bookHash none now genId).cfi) =
      ann.chapterIndex ∧
    ∃ a ∈ getAnnotations
        (some { booknotes :=
                  some ( createAnnotation config bookHash pid ann now genId).1 })
        pid (some ann.chapterIndex), a.id = genId := by
  have hcfi : ( mapSDKAnnotationToBookNote ann bookHash none now genId).cfi =
      "epubcfi(/6/" ++ intToDecimalString ((ann.chapterIndex + 1) * 2) ++
        "!)" := by
    simp [ mapSDKAnnotationToBookNote, hmeta]
  have hext : extractSectionIndexFromCFI
      (( mapSDKAnnotationToBookNote ann bookHash none now genId).cfi) =
      ann.chapterIndex := by
    rw [hcfi]
    exact extract_synth ann.chapterIndex hn
  refine ⟨hcfi, hext, ?_⟩
  refine ⟨ mapBookNoteToSDKAnnotation
      ( mapSDKAnnotationToBookNote ann bookHash none now genId) pid, ?_, rfl⟩
  rw [createAnnotation_fst, getAnnotations_some_def]
  refine List.mem_filter.mpr ⟨?_, ?_⟩
  · exact List.mem_map_of_mem _
      (List.mem_filter.mpr ⟨by simp, rfl⟩)
  · show (( mapBookNoteToSDKAnnotation
        ( mapSDKAnnotationToBookNote ann bookHash none now genId)
        pid).chapterIndex == ann.chapterIndex) = true
    have : ( mapBookNoteToSDKAnnotation
        ( mapSDKAnnotationToBookNote ann bookHash none now genId)
        pid).chapterIndex = ann.chapterIndex := hext
    simp [this]

/-- C10 witness: a concrete annotation at chapter index 3 with empty
metadata, instantiating `c10_synthesized_cfi_round_trip`. -/
theorem c10_witness :
    (0 ≤ (3 : Int) ∧
      (([] : List (String × String)).lookup "cfi" = none)) ∧
    (( mapSDKAnnotationToBookNote
        { chapterIndex := 3, type := SDKNoteType.highlight, content := "x",
          style := none, metadata := [] } none none 9 "id9").cfi =
        "epubcfi(/6/" ++ intToDecimalString (((3 : Int) + 1) * 2) ++ "!)" ∧
      extractSectionIndexFromCFI
        (( mapSDKAnnotationToBookNote
            { chapterIndex := 3, type := SDKNoteType.highlight, content := "x",
              style := none, metadata := [] } none none 9 "id9").cfi) = 3 ∧
      ∃ a ∈ getAnnotations
          (some { booknotes :=
                    some ( createAnnotation none none "p"
                      { chapterIndex := 3, type := SDKNoteType.highlight,
                        content := "x", style := none, metadata := [] }
                      9 "id9").1 })
          "p" (some 3), a.id = "id9") :=
  ⟨⟨by decide, rfl⟩,
    c10_synthesized_cfi_round_trip
      { chapterIndex := 3, type := SDKNoteType.highlight, content := "x",
        style := none, metadata := [] }
      none 9 "id9" none "p" (by decide) rfl⟩

/-- `findIndex` misses when no element satisfies the predicate. -/
theorem findIdx?_eq_none_of_all {α : Type} (p : α → Bool) (l : List α)
    (h : ∀ a ∈ l, p a = false) : ∀ i, List.findIdx? p l i = none := by
  induction l with
  | nil => intro i; rfl
  | cons x xs ih =>
      intro i
      rw [show List.findIdx? p (x :: xs) i =
          (if p x then some i else List.findIdx? p xs (i + 1)) from rfl]
      rw [h x (by simp)]
      simp only [Bool.false_eq_true, if_false]
      exact ih (fun a ha => h a (by simp [ha])) (i + 1)

/-- `findIndex` hits some index when a member satisfies the predicate. -/
theorem findIdx?_isSome_of_mem {α : Type} (p : α → Bool) (l : List α) (a : α)
    (ha : a ∈ l) (hp : p a = true) :
    ∀ i, (List.findIdx? p l i).isSome = true := by
  induction l with
  | nil => cases ha
  | cons x xs ih =>
      intro i
      rw [show List.findIdx? p (x :: xs) i =
          (if p x then some i else List.findIdx? p xs (i + 1)) from rfl]
      by_cases hx : p x
      · simp [hx]
      · rcases List.mem_cons.mp ha with rfl | ha'
        · exact absurd hp hx
        · simp only [hx, Bool.false_eq_true, if_false]
          exact ih ha' (i + 1)

/-- What a successful `findIndex` yields: the element at the found offset
satisfies the predicate. -/
theorem findIdx?_eq_some_get {α : Type} (p : α → Bool) (l : List α) :
    ∀ (i j : Nat), List.findIdx? p l i = some j →
      i ≤ j ∧ ∃ a, l.get? (j - i) = some a ∧ p a = true := by
  induction l with
  | nil => intro i j h; cases h
  | cons x xs ih =>
      intro i j h
      rw [show List.findIdx? p (x :: xs) i =
          (if p x then some i else List.findIdx? p xs (i + 1)) from rfl] at h
      by_cases hx : p x
      · rw [if_pos hx] at h
        injection h with hj
        subst hj
        exact ⟨le_refl i, x, by simp, hx⟩
      · rw [if_neg hx] at h
        obtain ⟨hle, a, hget, hpa⟩ := ih (i + 1) j h
        refine ⟨by omega, a, ?_, hpa⟩
        have hk : j - i = (j - (i + 1)) + 1 := by omega
        rw [hk]
        simpa using hget

/-- C3: soft delete. For an annotation id present in the (id-keyed) store,
after `deleteAnnotation` the lists returned by `getAnnotations` — with or
without a chapter filter — never include the id, while the record remains
in the persisted collection stamped with the deletion timestamp; deleting
an absent id is a no-op that leaves the stored config unchanged. -/
theorem c3_soft_delete :
    (∀ (cfg : BookConfig) (notes : List BookNote) (annId : String)
        (now : Nat),
        cfg.booknotes = some notes →
        (notes.map (fun n => n.id)).Nodup →
        (∃ n ∈ notes, n.id = annId) →
        0 < now →
        (∀ (pid : String) (chOpt : Option Int),
          ∀ a ∈ getAnnotations ( deleteAnnotation (some cfg) annId now) pid
            chOpt, a.id ≠ annId) ∧
        (∃ n ∈ booknotesOf ( deleteAnnotation (some cfg) annId now),
          n.id = annId ∧ n.deletedAt = some now)) ∧
    (∀ (config : Option BookConfig) (annId : String) (now : Nat),
        (∀ n ∈ booknotesOf config, n.id ≠ annId) →
        deleteAnnotation config annId now = config) := by
  constructor
  · intro cfg notes annId now hcfg hnodup hex hnow
    obtain ⟨n0, hn0mem, hn0id⟩ := hex
    have hsome := findIdx?_isSome_of_mem (fun n => n.id == annId) notes n0
      hn0mem (by simp [hn0id]) 0
    obtain ⟨i, hfind⟩ := Option.isSome_iff_exists.mp hsome
    obtain ⟨-, note0, hget0, hpred0⟩ :=
      findIdx?_eq_some_get (fun n => n.id == annId) notes 0 i hfind
    rw [Nat.sub_zero] at hget0
    have hnote0id : note0.id = annId := by simpa using hpred0
    obtain ⟨hi, hgeti⟩ := List.get?_eq_some.mp hget0
    have hget0' : notes[i]? = some note0 := by
      simpa [← List.get?_eq_getElem?] using hget0
    have hdel : deleteAnnotation (some cfg) annId now =
        some { booknotes := some (notes.set i
          { note0 with deletedAt := some now, updatedAt := now }) } := by
      simp [ deleteAnnotation, hcfg, hfind, hget0']
    constructor
    · intro pid chOpt a ha haid
      rw [hdel] at ha
      have ha' : a ∈ getAnnotations
          (some { booknotes := some (notes.set i
            { note0 with deletedAt := some now, updatedAt := now }) })
          pid none := by
        cases chOpt with
        | none => exact ha
        | some ci =>
            rw [getAnnotations_some_def] at ha
            rw [getAnnotations_none_def]
            exact (List.mem_filter.mp ha).1
      rw [getAnnotations_none_def] at ha'
      obtain ⟨note, hnote, hmap⟩ := List.mem_map.mp ha'
      obtain ⟨hnmem, hact⟩ := List.mem_filter.mp hnote
      have hnoteid : note.id = annId := by
        rw [← hmap] at haid
        exact haid
      obtain ⟨j, hj, hjeq⟩ := List.mem_iff_getElem.mp hnmem
      rw [List.getElem_set] at hjeq
      by_cases hij : i = j
      · rw [if_pos hij] at hjeq
        rw [← hjeq] at hact
        simp [isActiveNote] at hact
        omega
      · rw [if_neg hij] at hjeq
        have hjl : j < notes.length := by simpa using hj
        have hjm : j < (List.map (fun n => n.id) notes).length := by
          simpa using hjl
        have him : i < (List.map (fun n => n.id) notes).length := by
          simpa using hi
        have hidj : (notes.map (fun n => n.id))[j] = annId := by
          rw [List.getElem_map]
          rw [hjeq]
          exact hnoteid
        have hidi : (notes.map (fun n => n.id))[i] = annId := by
          rw [List.getElem_map]
          have : notes[i] = note0 := by
            rw [← hgeti]
            rfl
          rw [this]
          exact hnote0id
        have : j = i := by
          have := (List.Nodup.getElem_inj_iff hnodup).mp
            (hidj.trans hidi.symm)
          exact this
        exact hij this.symm
    · rw [hdel]
      have hiset : i < (notes.set i
          { note0 with deletedAt := some now, updatedAt := now }).length := by
        simpa using hi
      have hset : (notes.set i
          { note0 with deletedAt := some now, updatedAt := now })[i] =
          { note0 with deletedAt := some now, updatedAt := now } := by
        rw [List.getElem_set]
        simp
      refine ⟨{ note0 with deletedAt := some now, updatedAt := now }, ?_,
        by simpa using hnote0id, rfl⟩
      have hmemset := List.getElem_mem hiset
      rw [hset] at hmemset
      exact hmemset
  · intro config annId now hall
    cases config with
    | none => rfl
    | some cfg =>
        rcases hb : cfg.booknotes with _ | notes
        · simp [ deleteAnnotation, hb]
        · have hfind : List.findIdx? (fun n => n.id == annId) notes 0 =
              none := by
            apply findIdx?_eq_none_of_all
            intro a ha
            have hne := hall a (by simp [booknotesOf, hb, ha])
            simp [hne]
          simp [ deleteAnnotation, hb, hfind]

/-- C3 witness: a one-note store; deleting the present id "n1" keeps the
stamped record, and deleting the absent id "zz" is a no-op, instantiating
`c3_soft_delete`. -/
theorem c3_witness :
    (({ booknotes := some [{ id := "n1", bookHash := none, type := BookNoteType.bookmark, cfi := "", text := none, note := none, style := none, color := none, createdAt := 0, updatedAt := 0, deletedAt := none }] } : BookConfig).booknotes = some [{ id := "n1", bookHash := none, type := BookNoteType.bookmark, cfi := "", text := none, note := none, style := none, color := none, createdAt := 0, updatedAt := 0, deletedAt := none }] ∧ (0 : Nat) < 5) ∧
    (∃ n ∈ booknotesOf ( deleteAnnotation (some { booknotes := some [{ id := "n1", bookHash := none, type := BookNoteType.bookmark, cfi := "", text := none, note := none, style := none, color := none, createdAt := 0, updatedAt := 0, deletedAt := none }] }) "n1" 5), n.id = "n1" ∧ n.deletedAt = some 5) ∧
    deleteAnnotation (some { booknotes := some [{ id := "n1", bookHash := none, type := BookNoteType.bookmark, cfi := "", text := none, note := none, style := none, color := none, createdAt := 0, updatedAt := 0, deletedAt := none }] }) "zz" 5 = some { booknotes := some [{ id := "n1", bookHash := none, type := BookNoteType.bookmark, cfi := "", text := none, note := none, style := none, color := none, createdAt := 0, updatedAt := 0, deletedAt := none }] } :=
  ⟨⟨rfl, by decide⟩,
    (c3_soft_delete.1 { booknotes := some [{ id := "n1", bookHash := none, type := BookNoteType.bookmark, cfi := "", text := none, note := none, style := none, color := none, createdAt := 0, updatedAt := 0, deletedAt := none }] } [{ id := "n1", bookHash := none, type := BookNoteType.bookmark, cfi := "", text := none, note := none, style := none, color := none, createdAt := 0, updatedAt := 0, deletedAt := none }] "n1" 5 rfl (by simp) ⟨{ id := "n1", bookHash := none, type := BookNoteType.bookmark, cfi := "", text := none, note := none, style := none, color := none, createdAt := 0, updatedAt := 0, deletedAt := none }, by simp, rfl⟩ (by decide)).2,
    c3_soft_delete.2 (some { booknotes := some [{ id := "n1", bookHash := none, type := BookNoteType.bookmark, cfi := "", text := none, note := none, style := none, color := none, createdAt := 0, updatedAt := 0, deletedAt := none }] }) "zz" 5 (by decide)⟩
